import Mathlib

/-!
Verification of the financial-plan repository (mortgage amortization engine,
Norwegian tax calculator, projection-loop recurrences).

The Python source computes with floats; the embedding models the same
arithmetic over the rationals, so properties the specification states as
holding "within floating-point tolerance" are stated and proved exactly.
-/

namespace FinancialPlan

/-- A row of the amortization schedule, mirroring the dictionary appended by
the loop in calculate_mortgage_schedule (src/app.py, lines 187-194). -/
structure PaymentRecord where
  Payment_Number : ℕ
  Year : ℕ
  Monthly_Payment : ℚ
  Principal_Payment : ℚ
  Interest_Payment : ℚ
  Remaining_Balance : ℚ
deriving Repr, DecidableEq

/-- src/app.py, lines 130-139: monthly payment via the annuity formula, with
the zero-rate branch returning straight-line principal / (term_years * 12). -/
def calculate_monthly_payment (principal annual_rate : ℚ) (term_years : ℕ) : ℚ :=
  if annual_rate = 0 then principal / ((term_years : ℚ) * 12)
  else
    let monthly_rate := annual_rate / 100 / 12
    let num_payments := term_years * 12
    principal * (monthly_rate * (1 + monthly_rate) ^ num_payments) /
      ((1 + monthly_rate) ^ num_payments - 1)

/-- The loop body of calculate_mortgage_schedule (src/app.py, lines 172-194),
written as structural recursion: `payment_num` is the current 1-based payment
number and the last argument counts the payments still to produce.  The
clamp of the principal payment, the recomputed final payment, and the
flooring of the balance at 0 follow the source line by line. -/
def scheduleFrom (monthly_rate : ℚ) : ℚ → ℚ → ℕ → ℕ → List PaymentRecord
  | _, _, _, 0 => []
  | monthly_payment, remaining_balance, payment_num, k + 1 =>
    let interest_payment := remaining_balance * monthly_rate
    let pp0 := monthly_payment - interest_payment
    let principal_payment := if pp0 > remaining_balance then remaining_balance else pp0
    let monthly_payment2 :=
      if pp0 > remaining_balance then principal_payment + interest_payment else monthly_payment
    let balance2 := remaining_balance - principal_payment
    let balance3 := if balance2 < 0 then 0 else balance2
    { Payment_Number := payment_num
      Year := (payment_num - 1) / 12 + 1
      Monthly_Payment := monthly_payment2
      Principal_Payment := principal_payment
      Interest_Payment := interest_payment
      Remaining_Balance := balance3 } ::
      scheduleFrom monthly_rate monthly_payment2 balance3 (payment_num + 1) k

/-- src/app.py, lines 159-196: the full amortization schedule. -/
def calculate_mortgage_schedule (loan_amount annual_interest_rate : ℚ)
    (term_years : ℕ) : List PaymentRecord :=
  let monthly_interest_rate := annual_interest_rate / 100 / 12
  let total_payments := term_years * 12
  let monthly_payment :=
    if annual_interest_rate = 0 then loan_amount / (total_payments : ℚ)
    else calculate_monthly_payment loan_amount annual_interest_rate term_years
  scheduleFrom monthly_interest_rate monthly_payment loan_amount 1 total_payments

lemma scheduleFrom_length (monthly_rate : ℚ) :
    ∀ k mp bal pnum, (scheduleFrom monthly_rate mp bal pnum k).length = k := by
  intro k
  induction k with
  | zero => intro mp bal pnum; rfl
  | succ k ih =>
    intro mp bal pnum
    rw [scheduleFrom]
    simp only [List.length_cons, ih]

/-- When a balance function `f` satisfies the exact amortization recurrence and
stays non-negative up to step `N`, the clamp and the floor in the loop never
fire and the schedule is the explicit list read off from `f`. -/
lemma scheduleFrom_eq_map (monthly_rate monthly_payment : ℚ) (f : ℕ → ℚ) (N : ℕ)
    (hrec : ∀ j, j < N → f (j + 1) = (1 + monthly_rate) * f j - monthly_payment)
    (hpos : ∀ j, j ≤ N → 0 ≤ f j) :
    ∀ k m pnum, m + k ≤ N →
      scheduleFrom monthly_rate monthly_payment (f m) pnum k =
        (List.range k).map (fun i =>
          { Payment_Number := pnum + i
            Year := (pnum + i - 1) / 12 + 1
            Monthly_Payment := monthly_payment
            Principal_Payment := monthly_payment - f (m + i) * monthly_rate
            Interest_Payment := f (m + i) * monthly_rate
            Remaining_Balance := f (m + i + 1) }) := by
  intro k
  induction k with
  | zero => intro m pnum h; rfl
  | succ k ih =>
    intro m pnum h
    have hmN : m < N := by omega
    have hnext : f (m + 1) = (1 + monthly_rate) * f m - monthly_payment := hrec m hmN
    have hnn : 0 ≤ f (m + 1) := hpos (m + 1) (by omega)
    have hbal : f m - (monthly_payment - f m * monthly_rate) = f (m + 1) := by
      rw [hnext]; ring
    have hnc : ¬ (monthly_payment - f m * monthly_rate > f m) := by
      intro hgt
      have hlt : f (m + 1) < 0 := by rw [← hbal]; linarith
      linarith
    rw [scheduleFrom]
    simp only [if_neg hnc, hbal, if_neg (not_lt.2 hnn)]
    rw [ih (m + 1) (pnum + 1) (by omega), List.range_succ_eq_map, List.map_cons,
      List.map_map]
    refine congrArg₂ List.cons ?_ (List.map_congr_left ?_)
    · simp
    · intro i _
      have e1 : pnum + 1 + i = pnum + (i + 1) := by omega
      have e2 : m + 1 + i = m + (i + 1) := by omega
      simp only [Function.comp_apply]
      rw [e1, e2]

lemma scheduleFrom_eq_map_of (monthly_rate monthly_payment bal : ℚ) (f : ℕ → ℚ) (N : ℕ)
    (hbal : f 0 = bal)
    (hrec : ∀ j, j < N → f (j + 1) = (1 + monthly_rate) * f j - monthly_payment)
    (hpos : ∀ j, j ≤ N → 0 ≤ f j) :
    scheduleFrom monthly_rate monthly_payment bal 1 N =
      (List.range N).map (fun i =>
        { Payment_Number := 1 + i
          Year := (1 + i - 1) / 12 + 1
          Monthly_Payment := monthly_payment
          Principal_Payment := monthly_payment - f i * monthly_rate
          Interest_Payment := f i * monthly_rate
          Remaining_Balance := f (i + 1) }) := by
  subst hbal
  rw [scheduleFrom_eq_map monthly_rate monthly_payment f N hrec hpos N 0 1 (by omega)]
  apply List.map_congr_left
  intro i _
  simp

/-- Mathematical closed form of the remaining balance after `j` payments of
the fixed annuity on principal `P`, monthly rate `r`, over `n` payments. -/
def annuityBalance (P r : ℚ) (n j : ℕ) : ℚ :=
  P * ((1 + r) ^ n - (1 + r) ^ j) / ((1 + r) ^ n - 1)

lemma annuityBalance_den_pos (r : ℚ) (n : ℕ) (hr : 0 < r) (hn : n ≠ 0) :
    0 < (1 + r) ^ n - 1 := by
  have h := one_lt_pow₀ (show (1 : ℚ) < 1 + r by linarith) hn
  linarith

lemma annuityBalance_zero (P r : ℚ) (n : ℕ) (hr : 0 < r) (hn : n ≠ 0) :
    annuityBalance P r n 0 = P := by
  have h := annuityBalance_den_pos r n hr hn
  rw [annuityBalance, pow_zero, mul_div_assoc, div_self (ne_of_gt h), mul_one]

lemma annuityBalance_last (P r : ℚ) (n : ℕ) : annuityBalance P r n n = 0 := by
  rw [annuityBalance, sub_self, mul_zero, zero_div]

lemma annuityBalance_nonneg (P r : ℚ) (n j : ℕ) (hP : 0 ≤ P) (hr : 0 < r)
    (hj : j ≤ n) : 0 ≤ annuityBalance P r n j := by
  rcases Nat.eq_zero_or_pos n with hn | hn
  · subst hn
    interval_cases j
    rw [annuityBalance, sub_self, mul_zero, zero_div]
  · have hden := annuityBalance_den_pos r n hr (by omega)
    have hpow : (1 + r) ^ j ≤ (1 + r) ^ n :=
      pow_le_pow_right₀ (by linarith) hj
    have h2 := sub_nonneg.mpr hpow
    rw [annuityBalance]
    positivity

lemma annuityBalance_mono (P r : ℚ) (n j : ℕ) (hP : 0 ≤ P) (hr : 0 < r) :
    annuityBalance P r n (j + 1) ≤ annuityBalance P r n j := by
  have hpow : (1 + r) ^ j ≤ (1 + r) ^ (j + 1) :=
    pow_le_pow_right₀ (by linarith) (by omega)
  rcases Nat.eq_zero_or_pos n with hn | hn
  · subst hn
    rw [annuityBalance, annuityBalance, pow_zero]
    norm_num
  · have hden := annuityBalance_den_pos r n hr (by omega)
    rw [annuityBalance, annuityBalance]
    gcongr

lemma annuityBalance_rec (P r : ℚ) (n j : ℕ) (hr : 0 < r) (hn : n ≠ 0) :
    annuityBalance P r n (j + 1) =
      (1 + r) * annuityBalance P r n j -
        P * (r * (1 + r) ^ n) / ((1 + r) ^ n - 1) := by
  have hden := annuityBalance_den_pos r n hr hn
  rw [annuityBalance, annuityBalance, pow_succ]
  field_simp
  ring

/-- Exact-arithmetic closed form for the amortization loop: there is a balance
function `f` (the standard annuity balance, or straight-line at zero rate)
with `f 0` the principal, `f (term * 12) = 0`, non-negative and non-increasing
on the schedule, such that the schedule is the list read off from `f`. -/
lemma mortgage_schedule_closed_form (P a : ℚ) (ty : ℕ)
    (hP : 0 ≤ P) (ha : 0 ≤ a) (hty : 1 ≤ ty) :
    ∃ f : ℕ → ℚ, ∃ mp : ℚ,
      f 0 = P ∧ f (ty * 12) = 0 ∧
      (∀ j, j ≤ ty * 12 → 0 ≤ f j) ∧
      (∀ j, j < ty * 12 → f (j + 1) ≤ f j) ∧
      (∀ j, j < ty * 12 → mp - f j * (a / 100 / 12) = f j - f (j + 1)) ∧
      calculate_mortgage_schedule P a ty =
        (List.range (ty * 12)).map (fun i =>
          { Payment_Number := 1 + i
            Year := (1 + i - 1) / 12 + 1
            Monthly_Payment := mp
            Principal_Payment := mp - f i * (a / 100 / 12)
            Interest_Payment := f i * (a / 100 / 12)
            Remaining_Balance := f (i + 1) }) := by
  have hn0 : ty * 12 ≠ 0 := by omega
  have hnQ : (0 : ℚ) < ((ty * 12 : ℕ) : ℚ) := by
    exact_mod_cast Nat.pos_of_ne_zero hn0
  by_cases ha0 : a = 0
  · -- zero-rate branch: straight-line amortization
    subst ha0
    refine ⟨fun j => P * (((ty * 12 : ℕ) : ℚ) - (j : ℚ)) / ((ty * 12 : ℕ) : ℚ),
      P / ((ty * 12 : ℕ) : ℚ), ?_, ?_, ?_, ?_, ?_, ?_⟩
    · field_simp
    · simp
    · intro j hj
      have hc : (j : ℚ) ≤ ((ty * 12 : ℕ) : ℚ) := by exact_mod_cast hj
      have := sub_nonneg.mpr hc
      positivity
    · intro j hj
      rw [div_le_div_iff_of_pos_right hnQ]
      have hjc : ((j : ℚ) : ℚ) + 1 ≤ ((ty * 12 : ℕ) : ℚ) := by exact_mod_cast hj
      push_cast
      nlinarith
    · intro j hj
      push_cast
      field_simp
      ring
    · simp only [calculate_mortgage_schedule, if_pos rfl]
      apply scheduleFrom_eq_map_of
      · field_simp
      · intro j hj
        push_cast
        field_simp
        ring
      · intro j hj
        have hc : (j : ℚ) ≤ ((ty * 12 : ℕ) : ℚ) := by exact_mod_cast hj
        have := sub_nonneg.mpr hc
        positivity
  · -- positive-rate branch: annuity closed form
    have hapos : 0 < a := lt_of_le_of_ne ha (Ne.symm ha0)
    have hr : 0 < a / 100 / 12 := by positivity
    refine ⟨annuityBalance P (a / 100 / 12) (ty * 12),
      P * (a / 100 / 12 * (1 + a / 100 / 12) ^ (ty * 12)) /
        ((1 + a / 100 / 12) ^ (ty * 12) - 1), ?_, ?_, ?_, ?_, ?_, ?_⟩
    · exact annuityBalance_zero P _ _ hr hn0
    · exact annuityBalance_last P _ _
    · intro j hj
      exact annuityBalance_nonneg P _ _ j hP hr hj
    · intro j hj
      exact annuityBalance_mono P _ _ j hP hr
    · intro j hj
      rw [annuityBalance_rec P _ _ j hr hn0]
      ring
    · simp only [calculate_mortgage_schedule, calculate_monthly_payment, if_neg ha0]
      apply scheduleFrom_eq_map_of
      · exact annuityBalance_zero P _ _ hr hn0
      · intro j hj
        exact annuityBalance_rec P _ _ j hr hn0
      · intro j hj
        exact annuityBalance_nonneg P _ _ j hP hr hj

lemma sum_map_range_sub (g : ℕ → ℚ) :
    ∀ n, ((List.range n).map (fun i => g i - g (i + 1))).sum = g 0 - g n := by
  intro n
  induction n with
  | zero => simp
  | succ n ih =>
    rw [List.range_succ, List.map_append, List.sum_append, ih]
    simp only [List.map_cons, List.map_nil, List.sum_cons, List.sum_nil]
    ring

lemma getLast_map_range {α : Type} (F : ℕ → α) (k : ℕ)
    (h : (List.range (k + 1)).map F ≠ []) :
    ((List.range (k + 1)).map F).getLast h = F k := by
  have h1 := List.getLast?_eq_getLast ((List.range (k + 1)).map F) h
  have h2 : ((List.range (k + 1)).map F).getLast? = some (F k) := by
    rw [List.range_succ, List.map_append]
    simp
  rw [h1] at h2
  exact Option.some.inj h2

/-- C1: for a loan with non-negative principal, non-negative annual rate and
an integer term of at least one year, the schedule has exactly term * 12
records, the remaining balance never increases from one record to the next,
no balance is negative, and the final balance is exactly 0. -/
theorem mortgage_schedule_invariants (P a : ℚ) (ty : ℕ)
    (hP : 0 ≤ P) (ha : 0 ≤ a) (hty : 1 ≤ ty) :
    (calculate_mortgage_schedule P a ty).length = ty * 12 ∧
    List.Chain' (fun s t => t.Remaining_Balance ≤ s.Remaining_Balance)
      (calculate_mortgage_schedule P a ty) ∧
    (∀ rec ∈ calculate_mortgage_schedule P a ty, 0 ≤ rec.Remaining_Balance) ∧
    ∀ h : calculate_mortgage_schedule P a ty ≠ [],
      ((calculate_mortgage_schedule P a ty).getLast h).Remaining_Balance = 0 := by
  obtain ⟨f, mp, hf0, hfN, hpos, hmono, hpp, hmap⟩ :=
    mortgage_schedule_closed_form P a ty hP ha hty
  obtain ⟨k, hk⟩ : ∃ k, ty * 12 = k + 1 := ⟨ty * 12 - 1, by omega⟩
  refine ⟨?_, ?_, ?_, ?_⟩
  · rw [hmap, List.length_map, List.length_range]
  · rw [hmap, List.chain'_map, hk, List.chain'_range_succ]
    intro m hm
    simpa using hmono (m + 1) (by omega)
  · intro rec hrec
    rw [hmap] at hrec
    obtain ⟨i, hi, rfl⟩ := List.mem_map.mp hrec
    have hi12 : i < ty * 12 := List.mem_range.mp hi
    simpa using hpos (i + 1) (by omega)
  · intro h
    have h2 : (List.range (k + 1)).map (fun i =>
        ({ Payment_Number := 1 + i
           Year := (1 + i - 1) / 12 + 1
           Monthly_Payment := mp
           Principal_Payment := mp - f i * (a / 100 / 12)
           Interest_Payment := f i * (a / 100 / 12)
           Remaining_Balance := f (i + 1) } : PaymentRecord)) ≠ [] := by
      rw [← hk, ← hmap]
      exact h
    have h3 := getLast_map_range _ k h2
    calc ((calculate_mortgage_schedule P a ty).getLast h).Remaining_Balance
        = f (k + 1) := by
          rw [show ((calculate_mortgage_schedule P a ty).getLast h) =
            ((List.range (k + 1)).map (fun i =>
              ({ Payment_Number := 1 + i
                 Year := (1 + i - 1) / 12 + 1
                 Monthly_Payment := mp
                 Principal_Payment := mp - f i * (a / 100 / 12)
                 Interest_Payment := f i * (a / 100 / 12)
                 Remaining_Balance := f (i + 1) } : PaymentRecord))).getLast h2 from ?_,
            h3]
          apply List.getLast_congr
          rw [← hk, ← hmap]
      _ = 0 := by rw [← hk, hfN]

/-- C2: the principal payments over the full schedule sum to the original
principal exactly. -/
theorem principal_payments_sum_eq_principal (P a : ℚ) (ty : ℕ)
    (hP : 0 ≤ P) (ha : 0 ≤ a) (hty : 1 ≤ ty) :
    ((calculate_mortgage_schedule P a ty).map PaymentRecord.Principal_Payment).sum
      = P := by
  obtain ⟨f, mp, hf0, hfN, hpos, hmono, hpp, hmap⟩ :=
    mortgage_schedule_closed_form P a ty hP ha hty
  rw [hmap, List.map_map]
  have hcongr : (List.range (ty * 12)).map (PaymentRecord.Principal_Payment ∘ (fun i =>
      ({ Payment_Number := 1 + i
         Year := (1 + i - 1) / 12 + 1
         Monthly_Payment := mp
         Principal_Payment := mp - f i * (a / 100 / 12)
         Interest_Payment := f i * (a / 100 / 12)
         Remaining_Balance := f (i + 1) } : PaymentRecord)))
      = (List.range (ty * 12)).map (fun i => f i - f (i + 1)) := by
    apply List.map_congr_left
    intro i hi
    simpa using hpp i (List.mem_range.mp hi)
  rw [hcongr, sum_map_range_sub, hf0, hfN, sub_zero]

/-- C4 counterexample: calculate_mortgage_schedule performs no input
validation; called with the negative principal -1200 it does not fail but
returns a full 12-record schedule, refuting "validates and rejects every
call whose principal is negative". -/
theorem mortgage_schedule_no_validation_cex :
    (calculate_mortgage_schedule (-1200) 0 1).length = 12 ∧
    calculate_mortgage_schedule (-1200) 0 1 ≠ [] := by
  have h : (calculate_mortgage_schedule (-1200) 0 1).length = 12 := by
    simp only [calculate_mortgage_schedule]
    rw [scheduleFrom_length]
  refine ⟨h, ?_⟩
  intro hnil
  rw [hnil] at h
  simp at h

/-- C4 amended: calculate_mortgage_schedule performs no input validation; in
particular a negative principal is not rejected: for any principal (negative
included), any non-negative annual rate, and any term of at least one year it
returns a schedule of term * 12 records instead of failing.  (The rate is
restricted to be non-negative because at the degenerate annual rate -2400 the
annuity denominator is exactly 0 and the Python raises a ZeroDivisionError;
for non-negative rates the source has no failure path at all.) -/
theorem mortgage_schedule_total_no_reject (P a : ℚ) (ty : ℕ) (_ha : 0 ≤ a)
    (hty : 1 ≤ ty) :
    (calculate_mortgage_schedule P a ty).length = ty * 12 ∧
    calculate_mortgage_schedule P a ty ≠ [] := by
  have h : (calculate_mortgage_schedule P a ty).length = ty * 12 := by
    simp only [calculate_mortgage_schedule]
    rw [scheduleFrom_length]
  refine ⟨h, ?_⟩
  intro hnil
  rw [hnil] at h
  simp at h
  omega

theorem mortgage_schedule_total_no_reject_witness :
    (calculate_mortgage_schedule (-5000) 3 2).length = 2 * 12 ∧
    calculate_mortgage_schedule (-5000) 3 2 ≠ [] :=
  mortgage_schedule_total_no_reject (-5000) 3 2 (by norm_num) (by norm_num)

lemma scheduleFrom_interest_zero :
    ∀ k mp bal pnum, ∀ rec ∈ scheduleFrom 0 mp bal pnum k,
      rec.Interest_Payment = 0 := by
  intro k
  induction k with
  | zero => intro mp bal pnum rec h; simp [scheduleFrom] at h
  | succ k ih =>
    intro mp bal pnum rec h
    rw [scheduleFrom] at h
    simp only [List.mem_cons] at h
    rcases h with h | h
    · subst h
      simp
    · exact ih _ _ _ rec h

/-- C9: at a zero annual rate the monthly payment is principal / (term * 12)
(the explicit straight-line branch, no annuity division) and every record of
the schedule carries an interest payment of 0. -/
theorem zero_rate_straight_line (P : ℚ) (ty : ℕ) (_hP : 0 ≤ P) (_hty : 1 ≤ ty) :
    calculate_monthly_payment P 0 ty = P / ((ty : ℚ) * 12) ∧
    ∀ rec ∈ calculate_mortgage_schedule P 0 ty, rec.Interest_Payment = 0 := by
  constructor
  · rw [calculate_monthly_payment, if_pos rfl]
  · intro rec h
    have h0 : (0 : ℚ) / 100 / 12 = 0 := by norm_num
    simp only [calculate_mortgage_schedule] at h
    rw [h0] at h
    exact scheduleFrom_interest_zero _ _ _ _ rec h

theorem mortgage_schedule_invariants_witness :
    (calculate_mortgage_schedule 500000 5 20).length = 20 * 12 ∧
    List.Chain' (fun s t => t.Remaining_Balance ≤ s.Remaining_Balance)
      (calculate_mortgage_schedule 500000 5 20) ∧
    (∀ rec ∈ calculate_mortgage_schedule 500000 5 20, 0 ≤ rec.Remaining_Balance) ∧
    ∀ h : calculate_mortgage_schedule 500000 5 20 ≠ [],
      ((calculate_mortgage_schedule 500000 5 20).getLast h).Remaining_Balance = 0 :=
  mortgage_schedule_invariants 500000 5 20 (by norm_num) (by norm_num) (by norm_num)

theorem principal_payments_sum_eq_principal_witness :
    ((calculate_mortgage_schedule 2000000 (579 / 100) 30).map
      PaymentRecord.Principal_Payment).sum = 2000000 :=
  principal_payments_sum_eq_principal 2000000 (579 / 100) 30 (by norm_num) (by norm_num)
    (by norm_num)

theorem zero_rate_straight_line_witness :
    calculate_monthly_payment 1200 0 1 = 1200 / (((1 : ℕ) : ℚ) * 12) ∧
    ∀ rec ∈ calculate_mortgage_schedule 1200 0 1, rec.Interest_Payment = 0 :=
  zero_rate_straight_line 1200 1 (by norm_num) (by norm_num)

/-- The tax_components dictionary of calculate_norwegian_tax: the function
always stores exactly these six entries (src/taxes.py, lines 197-240). -/
structure TaxComponents where
  interest_deduction : ℚ
  social_security : ℚ
  income_tax : ℚ
  bracket_tax : ℚ
  municipal_wealth_tax : ℚ
  state_wealth_tax : ℚ
deriving Repr, DecidableEq

/-- Sum of the values of the tax_components dictionary
(src/taxes.py, line 243). -/
def TaxComponents.total (c : TaxComponents) : ℚ :=
  c.interest_deduction + c.social_security + c.income_tax + c.bracket_tax +
    c.municipal_wealth_tax + c.state_wealth_tax

/-- `result['interest']` (src/taxes.py, lines 187-193). -/
structure InterestInfo where
  mortgage_interest_rate : ℚ
  other_loans_interest_rate : ℚ
  mortgage_interest : ℚ
  other_loans_interest : ℚ
  total_interest : ℚ
deriving Repr, DecidableEq

/-- The result dictionary of calculate_norwegian_tax (src/taxes.py). -/
structure TaxResult where
  income : ℚ
  gross_wealth : ℚ
  loans : ℚ
  mortgage : ℚ
  primary_home_value : ℚ
  bank_balance : ℚ
  income_type : String
  year : ℤ
  total_debt : ℚ
  net_wealth_for_tax : ℚ
  interest : InterestInfo
  tax_components : TaxComponents
  total_tax : ℚ
  effective_tax_rate : ℚ
deriving Repr, DecidableEq

/-- The per-year constant block of calculate_norwegian_tax
(src/taxes.py, lines 68-159). -/
structure TaxYearProfile where
  income_tax_rate : ℚ
  personal_deduction : ℚ
  social_security_wage : ℚ
  social_security_self_employment : ℚ
  social_security_pension : ℚ
  bracket_tax_thresholds : List (ℚ × ℚ)
  wealth_tax_threshold : ℚ
  municipal_wealth_tax_rate : ℚ
  state_wealth_tax_thresholds : List (ℚ × ℚ)
  primary_home_value_reduction : ℚ
  secondary_home_value_reduction : ℚ
  interest_deduction_rate : ℚ
deriving Repr, DecidableEq

/-- 2025 constants (src/taxes.py, lines 69-113). -/
def profile_2025 : TaxYearProfile :=
  { income_tax_rate := 0.22
    personal_deduction := 79200
    social_security_wage := 0.080
    social_security_self_employment := 0.112
    social_security_pension := 0.051
    bracket_tax_thresholds :=
      [(0, 0), (217400, 0.017), (306050, 0.040), (697150, 0.137),
        (942400, 0.167), (1410750, 0.177)]
    wealth_tax_threshold := 1760000
    municipal_wealth_tax_rate := 0.007
    state_wealth_tax_thresholds := [(1760000, 0.00525), (20070000, 0.01)]
    primary_home_value_reduction := 0.25
    secondary_home_value_reduction := 0.95
    interest_deduction_rate := 0.22 }

/-- 2024 constants (src/taxes.py, lines 115-159). -/
def profile_2024 : TaxYearProfile :=
  { income_tax_rate := 0.22
    personal_deduction := 77700
    social_security_wage := 0.080
    social_security_self_employment := 0.112
    social_security_pension := 0.051
    bracket_tax_thresholds :=
      [(0, 0), (208050, 0.017), (293250, 0.040), (667650, 0.137),
        (902300, 0.167), (1350000, 0.177)]
    wealth_tax_threshold := 1700000
    municipal_wealth_tax_rate := 0.007
    state_wealth_tax_thresholds := [(1700000, 0.00525), (19970000, 0.01)]
    primary_home_value_reduction := 0.25
    secondary_home_value_reduction := 0.95
    interest_deduction_rate := 0.22 }

/-- The `if year == 2025 ... elif year == 2024` dispatch; after validation the
year is one of the two. -/
def profile_for (year : ℤ) : TaxYearProfile :=
  if year = 2025 then profile_2025 else profile_2024

/-- `social_security_rates[income_type]` dictionary lookup; after validation
the income type is one of the three keys. -/
def TaxYearProfile.social_security_rate (p : TaxYearProfile)
    (income_type : String) : ℚ :=
  if income_type = "wage" then p.social_security_wage
  else if income_type = "self_employment" then p.social_security_self_employment
  else p.social_security_pension

/-- The progressive walk from the highest bracket down (src/taxes.py,
lines 215-219 for income over `thresholds[1:]` reversed, and lines 234-238
for net wealth over the whole table reversed): for each (threshold, rate)
with the running amount above the threshold, accumulate
(amount - threshold) * rate and clamp the running amount to the threshold. -/
def progressive_tax : List (ℚ × ℚ) → ℚ → ℚ
  | [], _ => 0
  | (threshold, rate) :: rest, remaining =>
    if remaining > threshold then
      (remaining - threshold) * rate + progressive_tax rest threshold
    else progressive_tax rest remaining

/-- src/taxes.py, lines 166-174: taxable value of the primary home.  It is
computed by the source but never used afterwards (neither stored in the
result nor folded into net_wealth_for_tax). -/
def taxable_primary_home_value (primary_home_value reduction : ℚ) : ℚ :=
  if primary_home_value > 0 then
    if primary_home_value ≤ 10000000 then primary_home_value * reduction
    else 10000000 * reduction + (primary_home_value - 10000000) * 0.5
  else 0

/-- The body of calculate_norwegian_tax after validation
(src/taxes.py, lines 56-252). -/
def norwegian_tax_result (income wealth loans mortgage : ℚ) (year : ℤ)
    (primary_home_value bank_balance : ℚ) (income_type : String)
    (mortgage_interest_rate other_loans_interest_rate : ℚ) : TaxResult :=
  let p := profile_for year
  let total_debt := loans + mortgage
  let net_wealth_for_tax := max 0 (wealth - total_debt)
  let mortgage_interest := mortgage * mortgage_interest_rate
  let other_loans_interest := loans * other_loans_interest_rate
  let total_interest := mortgage_interest + other_loans_interest
  let interest_deduction := total_interest * p.interest_deduction_rate
  let social_security := income * p.social_security_rate income_type
  let taxable_income := max 0 (income - p.personal_deduction - total_interest)
  let income_tax := taxable_income * p.income_tax_rate
  let bracket_tax := progressive_tax (p.bracket_tax_thresholds.drop 1).reverse income
  let municipal_wealth_tax :=
    max 0 ((net_wealth_for_tax - p.wealth_tax_threshold) * p.municipal_wealth_tax_rate)
  let state_wealth_tax :=
    progressive_tax p.state_wealth_tax_thresholds.reverse net_wealth_for_tax
  let components : TaxComponents :=
    { interest_deduction := -interest_deduction
      social_security := social_security
      income_tax := income_tax
      bracket_tax := bracket_tax
      municipal_wealth_tax := municipal_wealth_tax
      state_wealth_tax := state_wealth_tax }
  let total_tax := components.total
  { income := income
    gross_wealth := wealth
    loans := loans
    mortgage := mortgage
    primary_home_value := primary_home_value
    bank_balance := bank_balance
    income_type := income_type
    year := year
    total_debt := total_debt
    net_wealth_for_tax := net_wealth_for_tax
    interest :=
      { mortgage_interest_rate := mortgage_interest_rate
        other_loans_interest_rate := other_loans_interest_rate
        mortgage_interest := mortgage_interest
        other_loans_interest := other_loans_interest
        total_interest := total_interest }
    tax_components := components
    total_tax := total_tax
    effective_tax_rate := if income > 0 then total_tax / income else 0 }

/-- src/taxes.py, lines 37-54 (validation, in source order) wrapped around
the computation; a ValueError is modelled as the error case. -/
def calculate_norwegian_tax (income wealth loans mortgage : ℚ) (year : ℤ)
    (primary_home_value bank_balance : ℚ) (income_type : String)
    (mortgage_interest_rate other_loans_interest_rate : ℚ) :
    Except String TaxResult :=
  if income < 0 then .error ("Income cannot be negative")
  else if wealth < 0 then .error ("Wealth cannot be negative")
  else if loans < 0 then .error ("Loans cannot be negative")
  else if mortgage < 0 then .error ("Mortgage cannot be negative")
  else if primary_home_value < 0 then .error ("Primary home value cannot be negative")
  else if bank_balance < 0 then .error ("Bank balance cannot be negative")
  else if year ≠ 2024 ∧ year ≠ 2025 then .error ("Tax year is not supported")
  else if ¬ (income_type = "wage" ∨ income_type = "self_employment" ∨
      income_type = "pension") then .error ("Income type is not supported")
  else .ok (norwegian_tax_result income wealth loans mortgage year
    primary_home_value bank_balance income_type mortgage_interest_rate
    other_loans_interest_rate)

/-- C3: calculate_norwegian_tax reports an error exactly when a monetary
field is negative, the year is outside {2024, 2025}, or the income type is
outside the three allowed values; every other input yields a result. -/
theorem calculate_norwegian_tax_error_iff (income wealth loans mortgage : ℚ)
    (year : ℤ) (primary_home_value bank_balance : ℚ) (income_type : String)
    (mortgage_interest_rate other_loans_interest_rate : ℚ) :
    (∃ e, calculate_norwegian_tax income wealth loans mortgage year
        primary_home_value bank_balance income_type mortgage_interest_rate
        other_loans_interest_rate = .error e) ↔
      (income < 0 ∨ wealth < 0 ∨ loans < 0 ∨ mortgage < 0 ∨
        primary_home_value < 0 ∨ bank_balance < 0 ∨
        (year ≠ 2024 ∧ year ≠ 2025) ∨
        ¬ (income_type = "wage" ∨ income_type = "self_employment" ∨
          income_type = "pension")) := by
  rw [calculate_norwegian_tax]
  split_ifs with h1 h2 h3 h4 h5 h6 h7 h8 <;> simp_all

lemma calculate_norwegian_tax_eq_ok (income wealth loans mortgage : ℚ)
    (year : ℤ) (phv bb : ℚ) (it : String) (mr lr : ℚ)
    (hinc : 0 ≤ income) (hw : 0 ≤ wealth) (hl : 0 ≤ loans) (hm : 0 ≤ mortgage)
    (hphv : 0 ≤ phv) (hbb : 0 ≤ bb)
    (hyear : year = 2024 ∨ year = 2025)
    (hit : it = "wage" ∨ it = "self_employment" ∨ it = "pension") :
    calculate_norwegian_tax income wealth loans mortgage year phv bb it mr lr =
      .ok (norwegian_tax_result income wealth loans mortgage year phv bb it
        mr lr) := by
  rw [calculate_norwegian_tax]
  rw [if_neg (not_lt.2 hinc), if_neg (not_lt.2 hw), if_neg (not_lt.2 hl),
    if_neg (not_lt.2 hm), if_neg (not_lt.2 hphv), if_neg (not_lt.2 hbb),
    if_neg (by tauto), if_neg (not_not_intro hit)]

/-- C5: net_wealth_for_tax is max(0, wealth - (loans + mortgage)), and two
valid calls differing only in primary_home_value and bank_balance return the
same net wealth, the same tax components, the same total tax and the same
effective tax rate. -/
theorem net_wealth_ignores_home_and_bank (income wealth loans mortgage : ℚ)
    (year : ℤ) (phv bb phv2 bb2 : ℚ) (it : String) (mr lr : ℚ)
    (hinc : 0 ≤ income) (hw : 0 ≤ wealth) (hl : 0 ≤ loans) (hm : 0 ≤ mortgage)
    (hphv : 0 ≤ phv) (hbb : 0 ≤ bb) (hphv2 : 0 ≤ phv2) (hbb2 : 0 ≤ bb2)
    (hyear : year = 2024 ∨ year = 2025)
    (hit : it = "wage" ∨ it = "self_employment" ∨ it = "pension") :
    calculate_norwegian_tax income wealth loans mortgage year phv bb it mr lr =
      .ok (norwegian_tax_result income wealth loans mortgage year phv bb it
        mr lr) ∧
    calculate_norwegian_tax income wealth loans mortgage year phv2 bb2 it mr lr =
      .ok (norwegian_tax_result income wealth loans mortgage year phv2 bb2 it
        mr lr) ∧
    (norwegian_tax_result income wealth loans mortgage year phv bb it mr
      lr).net_wealth_for_tax = max 0 (wealth - (loans + mortgage)) ∧
    (norwegian_tax_result income wealth loans mortgage year phv2 bb2 it mr
      lr).net_wealth_for_tax =
      (norwegian_tax_result income wealth loans mortgage year phv bb it mr
        lr).net_wealth_for_tax ∧
    (norwegian_tax_result income wealth loans mortgage year phv2 bb2 it mr
      lr).tax_components =
      (norwegian_tax_result income wealth loans mortgage year phv bb it mr
        lr).tax_components ∧
    (norwegian_tax_result income wealth loans mortgage year phv2 bb2 it mr
      lr).total_tax =
      (norwegian_tax_result income wealth loans mortgage year phv bb it mr
        lr).total_tax ∧
    (norwegian_tax_result income wealth loans mortgage year phv2 bb2 it mr
      lr).effective_tax_rate =
      (norwegian_tax_result income wealth loans mortgage year phv bb it mr
        lr).effective_tax_rate :=
  ⟨calculate_norwegian_tax_eq_ok income wealth loans mortgage year phv bb it
      mr lr hinc hw hl hm hphv hbb hyear hit,
    calculate_norwegian_tax_eq_ok income wealth loans mortgage year phv2 bb2
      it mr lr hinc hw hl hm hphv2 hbb2 hyear hit,
    rfl, rfl, rfl, rfl, rfl⟩

/-- C7: the effective tax rate is returned as 0 when income is 0 (the
division is guarded), and equals total_tax / income when income > 0. -/
theorem effective_tax_rate_guarded (income wealth loans mortgage : ℚ)
    (year : ℤ) (phv bb : ℚ) (it : String) (mr lr : ℚ)
    (hinc : 0 ≤ income) (hw : 0 ≤ wealth) (hl : 0 ≤ loans) (hm : 0 ≤ mortgage)
    (hphv : 0 ≤ phv) (hbb : 0 ≤ bb)
    (hyear : year = 2024 ∨ year = 2025)
    (hit : it = "wage" ∨ it = "self_employment" ∨ it = "pension") :
    calculate_norwegian_tax income wealth loans mortgage year phv bb it mr lr =
      .ok (norwegian_tax_result income wealth loans mortgage year phv bb it
        mr lr) ∧
    (income = 0 →
      (norwegian_tax_result income wealth loans mortgage year phv bb it mr
        lr).effective_tax_rate = 0) ∧
    (0 < income →
      (norwegian_tax_result income wealth loans mortgage year phv bb it mr
        lr).effective_tax_rate =
        (norwegian_tax_result income wealth loans mortgage year phv bb it mr
          lr).total_tax / income) := by
  refine ⟨calculate_norwegian_tax_eq_ok income wealth loans mortgage year phv
    bb it mr lr hinc hw hl hm hphv hbb hyear hit, ?_, ?_⟩
  · intro h0
    subst h0
    simp [norwegian_tax_result]
  · intro hpos
    simp [norwegian_tax_result, hpos]

lemma progressive_tax_mono (l : List (ℚ × ℚ)) (hl : ∀ q ∈ l, 0 ≤ q.2) :
    ∀ x y : ℚ, x ≤ y → progressive_tax l x ≤ progressive_tax l y := by
  induction l with
  | nil =>
    intro x y _
    simp [progressive_tax]
  | cons hd tl ih =>
    obtain ⟨t, r⟩ := hd
    have hr : 0 ≤ r := hl (t, r) (List.mem_cons_self _ _)
    have htl : ∀ q ∈ tl, 0 ≤ q.2 := fun q hq => hl q (List.mem_cons_of_mem _ hq)
    intro x y hxy
    simp only [progressive_tax]
    split_ifs with hx hy hy
    · have h1 : (x - t) * r ≤ (y - t) * r :=
        mul_le_mul_of_nonneg_right (by linarith) hr
      linarith
    · exact absurd (lt_of_lt_of_le hx hxy) hy
    · have h1 : progressive_tax tl x ≤ progressive_tax tl t :=
        ih htl x t (le_of_not_lt hx)
      have h2 : 0 ≤ (y - t) * r := mul_nonneg (by linarith) hr
      linarith
    · exact ih htl x y hxy

lemma progressive_tax_skip (t r : ℚ) (rest : List (ℚ × ℚ)) (x : ℚ)
    (hx : x ≤ t) :
    progressive_tax ((t, r) :: rest) x = progressive_tax rest x := by
  simp only [progressive_tax, if_neg (not_lt.2 hx)]

lemma progressive_tax_append_skip (hi : List (ℚ × ℚ)) (t r : ℚ)
    (lo : List (ℚ × ℚ)) (hhi : ∀ q ∈ hi, t ≤ q.1) :
    progressive_tax (hi ++ (t, r) :: lo) t = progressive_tax lo t := by
  induction hi with
  | nil => exact progressive_tax_skip t r lo t le_rfl
  | cons hd tl ih =>
    obtain ⟨a, b⟩ := hd
    have ha : t ≤ a := hhi (a, b) (List.mem_cons_self _ _)
    rw [List.cons_append, progressive_tax_skip a b _ t ha]
    exact ih fun q hq => hhi q (List.mem_cons_of_mem _ hq)

/-- A bracket table sorted with thresholds descending taxes nothing at an
income equal to any of its thresholds from the brackets at or above it. -/
lemma progressive_tax_split_of_pairwise (L hi lo : List (ℚ × ℚ)) (t r : ℚ)
    (hp : List.Pairwise (fun a b => b.1 ≤ a.1) L)
    (hL : L = hi ++ (t, r) :: lo) :
    progressive_tax (hi ++ (t, r) :: lo) t = progressive_tax lo t := by
  subst hL
  rcases List.pairwise_append.mp hp with ⟨-, -, hcross⟩
  exact progressive_tax_append_skip hi t r lo
    fun q hq => hcross q hq (t, r) (List.mem_cons_self _ _)

lemma profile_for_2024 : profile_for 2024 = profile_2024 := by
  rw [profile_for, if_neg (by decide)]

lemma profile_for_2025 : profile_for 2025 = profile_2025 := by
  rw [profile_for, if_pos rfl]

lemma brackets_rev_2025 :
    ((profile_2025.bracket_tax_thresholds.drop 1).reverse) =
      [(1410750, 0.177), (942400, 0.167), (697150, 0.137), (306050, 0.040),
        (217400, 0.017)] := rfl

lemma brackets_rev_2024 :
    ((profile_2024.bracket_tax_thresholds.drop 1).reverse) =
      [(1350000, 0.177), (902300, 0.167), (667650, 0.137), (293250, 0.040),
        (208050, 0.017)] := rfl

lemma swt_rev_2025 :
    profile_2025.state_wealth_tax_thresholds.reverse =
      [(20070000, 0.01), (1760000, 0.00525)] := rfl

lemma swt_rev_2024 :
    profile_2024.state_wealth_tax_thresholds.reverse =
      [(19970000, 0.01), (1700000, 0.00525)] := rfl

/-- C6: with everything else fixed, the bracket-tax component returned by
calculate_norwegian_tax is non-decreasing in income and the state-wealth-tax
component is non-decreasing in (gross) wealth; moreover, over the bracket
table actually walked by the code (and likewise the state wealth table), an
amount exactly equal to a bracket threshold receives zero contribution from
that bracket and from every higher one, so the tax is the one computed from
the strictly lower brackets alone. -/
theorem bracket_taxes_monotone_and_marginal
    (income income2 wealth wealth2 loans mortgage : ℚ) (year : ℤ)
    (phv bb : ℚ) (it : String) (mr lr : ℚ)
    (hinc : 0 ≤ income) (hw : 0 ≤ wealth) (hl : 0 ≤ loans) (hm : 0 ≤ mortgage)
    (hphv : 0 ≤ phv) (hbb : 0 ≤ bb)
    (hyear : year = 2024 ∨ year = 2025)
    (hit : it = "wage" ∨ it = "self_employment" ∨ it = "pension")
    (hii : income ≤ income2) (hww : wealth ≤ wealth2) :
    (∀ r1 r2 : TaxResult,
      calculate_norwegian_tax income wealth loans mortgage year phv bb it mr lr
        = .ok r1 →
      calculate_norwegian_tax income2 wealth loans mortgage year phv bb it mr lr
        = .ok r2 →
      r1.tax_components.bracket_tax ≤ r2.tax_components.bracket_tax) ∧
    (∀ r1 r2 : TaxResult,
      calculate_norwegian_tax income wealth loans mortgage year phv bb it mr lr
        = .ok r1 →
      calculate_norwegian_tax income wealth2 loans mortgage year phv bb it mr lr
        = .ok r2 →
      r1.tax_components.state_wealth_tax ≤ r2.tax_components.state_wealth_tax) ∧
    (∀ hi lo : List (ℚ × ℚ), ∀ t r : ℚ,
      ((profile_for year).bracket_tax_thresholds.drop 1).reverse
        = hi ++ (t, r) :: lo →
      progressive_tax (hi ++ (t, r) :: lo) t = progressive_tax lo t) ∧
    (∀ hi lo : List (ℚ × ℚ), ∀ t r : ℚ,
      (profile_for year).state_wealth_tax_thresholds.reverse
        = hi ++ (t, r) :: lo →
      progressive_tax (hi ++ (t, r) :: lo) t = progressive_tax lo t) := by
  have hinc2 : 0 ≤ income2 := le_trans hinc hii
  have hw2 : 0 ≤ wealth2 := le_trans hw hww
  have hbr_nonneg : ∀ q ∈ ((profile_for year).bracket_tax_thresholds.drop 1).reverse,
      0 ≤ q.2 := by
    rcases hyear with hy | hy <;> subst hy
    · rw [profile_for_2024, brackets_rev_2024]
      intro q hq
      simp only [List.mem_cons, List.not_mem_nil, or_false] at hq
      rcases hq with rfl | rfl | rfl | rfl | rfl <;> norm_num
    · rw [profile_for_2025, brackets_rev_2025]
      intro q hq
      simp only [List.mem_cons, List.not_mem_nil, or_false] at hq
      rcases hq with rfl | rfl | rfl | rfl | rfl <;> norm_num
  have hsw_nonneg : ∀ q ∈ (profile_for year).state_wealth_tax_thresholds.reverse,
      0 ≤ q.2 := by
    rcases hyear with hy | hy <;> subst hy
    · rw [profile_for_2024, swt_rev_2024]
      intro q hq
      simp only [List.mem_cons, List.not_mem_nil, or_false] at hq
      rcases hq with rfl | rfl <;> norm_num
    · rw [profile_for_2025, swt_rev_2025]
      intro q hq
      simp only [List.mem_cons, List.not_mem_nil, or_false] at hq
      rcases hq with rfl | rfl <;> norm_num
  have hbr_sorted : List.Pairwise (fun a b : ℚ × ℚ => b.1 ≤ a.1)
      (((profile_for year).bracket_tax_thresholds.drop 1).reverse) := by
    rcases hyear with hy | hy <;> subst hy
    · rw [profile_for_2024, brackets_rev_2024]
      norm_num [List.pairwise_cons, List.mem_cons]
    · rw [profile_for_2025, brackets_rev_2025]
      norm_num [List.pairwise_cons, List.mem_cons]
  have hsw_sorted : List.Pairwise (fun a b : ℚ × ℚ => b.1 ≤ a.1)
      ((profile_for year).state_wealth_tax_thresholds.reverse) := by
    rcases hyear with hy | hy <;> subst hy
    · rw [profile_for_2024, swt_rev_2024]
      norm_num [List.pairwise_cons, List.mem_cons]
    · rw [profile_for_2025, swt_rev_2025]
      norm_num [List.pairwise_cons, List.mem_cons]
  refine ⟨?_, ?_, ?_, ?_⟩
  · intro r1 r2 h1 h2
    rw [calculate_norwegian_tax_eq_ok income wealth loans mortgage year phv bb
      it mr lr hinc hw hl hm hphv hbb hyear hit] at h1
    rw [calculate_norwegian_tax_eq_ok income2 wealth loans mortgage year phv bb
      it mr lr hinc2 hw hl hm hphv hbb hyear hit] at h2
    injection h1 with h1
    injection h2 with h2
    subst h1
    subst h2
    exact progressive_tax_mono _ hbr_nonneg income income2 hii
  · intro r1 r2 h1 h2
    rw [calculate_norwegian_tax_eq_ok income wealth loans mortgage year phv bb
      it mr lr hinc hw hl hm hphv hbb hyear hit] at h1
    rw [calculate_norwegian_tax_eq_ok income wealth2 loans mortgage year phv bb
      it mr lr hinc hw2 hl hm hphv hbb hyear hit] at h2
    injection h1 with h1
    injection h2 with h2
    subst h1
    subst h2
    have hnw : max 0 (wealth - (loans + mortgage)) ≤
        max 0 (wealth2 - (loans + mortgage)) :=
      max_le_max le_rfl (by linarith)
    exact progressive_tax_mono _ hsw_nonneg _ _ hnw
  · intro hi lo t r hsplit
    exact progressive_tax_split_of_pairwise _ hi lo t r hbr_sorted hsplit
  · intro hi lo t r hsplit
    exact progressive_tax_split_of_pairwise _ hi lo t r hsw_sorted hsplit

theorem net_wealth_ignores_home_and_bank_witness :
    calculate_norwegian_tax 675000 1000000 0 500000 2025 4000000 200000 "wage"
      0.04 0.06 =
      .ok (norwegian_tax_result 675000 1000000 0 500000 2025 4000000 200000
        "wage" 0.04 0.06) ∧
    calculate_norwegian_tax 675000 1000000 0 500000 2025 0 0 "wage" 0.04 0.06 =
      .ok (norwegian_tax_result 675000 1000000 0 500000 2025 0 0 "wage" 0.04
        0.06) ∧
    (norwegian_tax_result 675000 1000000 0 500000 2025 4000000 200000 "wage"
      0.04 0.06).net_wealth_for_tax = max 0 (1000000 - (0 + 500000)) ∧
    (norwegian_tax_result 675000 1000000 0 500000 2025 0 0 "wage" 0.04
      0.06).net_wealth_for_tax =
      (norwegian_tax_result 675000 1000000 0 500000 2025 4000000 200000 "wage"
        0.04 0.06).net_wealth_for_tax ∧
    (norwegian_tax_result 675000 1000000 0 500000 2025 0 0 "wage" 0.04
      0.06).tax_components =
      (norwegian_tax_result 675000 1000000 0 500000 2025 4000000 200000 "wage"
        0.04 0.06).tax_components ∧
    (norwegian_tax_result 675000 1000000 0 500000 2025 0 0 "wage" 0.04
      0.06).total_tax =
      (norwegian_tax_result 675000 1000000 0 500000 2025 4000000 200000 "wage"
        0.04 0.06).total_tax ∧
    (norwegian_tax_result 675000 1000000 0 500000 2025 0 0 "wage" 0.04
      0.06).effective_tax_rate =
      (norwegian_tax_result 675000 1000000 0 500000 2025 4000000 200000 "wage"
        0.04 0.06).effective_tax_rate :=
  net_wealth_ignores_home_and_bank 675000 1000000 0 500000 2025 4000000 200000
    0 0 "wage" 0.04 0.06 (by norm_num) (by norm_num) (by norm_num)
    (by norm_num) (by norm_num) (by norm_num) (by norm_num) (by norm_num)
    (Or.inr rfl) (Or.inl rfl)

theorem effective_tax_rate_guarded_witness :
    calculate_norwegian_tax 0 2000000 0 0 2024 0 0 "pension" 0.04 0.06 =
      .ok (norwegian_tax_result 0 2000000 0 0 2024 0 0 "pension" 0.04 0.06) ∧
    ((0 : ℚ) = 0 →
      (norwegian_tax_result 0 2000000 0 0 2024 0 0 "pension" 0.04
        0.06).effective_tax_rate = 0) ∧
    ((0 : ℚ) < 0 →
      (norwegian_tax_result 0 2000000 0 0 2024 0 0 "pension" 0.04
        0.06).effective_tax_rate =
        (norwegian_tax_result 0 2000000 0 0 2024 0 0 "pension" 0.04
          0.06).total_tax / 0) :=
  effective_tax_rate_guarded 0 2000000 0 0 2024 0 0 "pension" 0.04 0.06
    (by norm_num) (by norm_num) (by norm_num) (by norm_num) (by norm_num)
    (by norm_num) (Or.inl rfl) (Or.inr (Or.inr rfl))

theorem bracket_taxes_monotone_and_marginal_witness :
    (∀ r1 r2 : TaxResult,
      calculate_norwegian_tax 300000 1000000 0 500000 2025 0 0 "wage" 0.04 0.06
        = .ok r1 →
      calculate_norwegian_tax 700000 1000000 0 500000 2025 0 0 "wage" 0.04 0.06
        = .ok r2 →
      r1.tax_components.bracket_tax ≤ r2.tax_components.bracket_tax) ∧
    (∀ r1 r2 : TaxResult,
      calculate_norwegian_tax 300000 1000000 0 500000 2025 0 0 "wage" 0.04 0.06
        = .ok r1 →
      calculate_norwegian_tax 300000 3000000 0 500000 2025 0 0 "wage" 0.04 0.06
        = .ok r2 →
      r1.tax_components.state_wealth_tax ≤ r2.tax_components.state_wealth_tax) ∧
    (∀ hi lo : List (ℚ × ℚ), ∀ t r : ℚ,
      ((profile_for 2025).bracket_tax_thresholds.drop 1).reverse
        = hi ++ (t, r) :: lo →
      progressive_tax (hi ++ (t, r) :: lo) t = progressive_tax lo t) ∧
    (∀ hi lo : List (ℚ × ℚ), ∀ t r : ℚ,
      (profile_for 2025).state_wealth_tax_thresholds.reverse
        = hi ++ (t, r) :: lo →
      progressive_tax (hi ++ (t, r) :: lo) t = progressive_tax lo t) :=
  bracket_taxes_monotone_and_marginal 300000 700000 1000000 3000000 0 500000
    2025 0 0 "wage" 0.04 0.06 (by norm_num) (by norm_num) (by norm_num)
    (by norm_num) (by norm_num) (by norm_num) (Or.inr rfl) (Or.inl rfl)
    (by norm_num) (by norm_num)

/-- The cumulative-savings accumulation of the projection loop
(src/app.py, lines 252 and 344-349), parameterised by the sequence of annual
savings potentials the loop computes for each year.  `savings_return_rate`
is the slider value in percent, hence the division by 100 as in the source. -/
def cumulative_savings (savings_return_rate : ℚ)
    (annual_savings_potential : ℕ → ℚ) : ℕ → ℚ
  | 0 => 0
  | y + 1 =>
    if y + 1 = 1 then annual_savings_potential 1
    else
      cumulative_savings savings_return_rate annual_savings_potential y *
          (1 + savings_return_rate / 100) +
        annual_savings_potential (y + 1)

/-- C8: year 1 records exactly that year's annual savings potential, and each
later year records the previous cumulative savings grown by the return rate
plus the year's own savings potential. -/
theorem cumulative_savings_recurrence (srr : ℚ) (asp : ℕ → ℚ) :
    cumulative_savings srr asp 1 = asp 1 ∧
    ∀ y, 2 ≤ y →
      cumulative_savings srr asp y =
        cumulative_savings srr asp (y - 1) * (1 + srr / 100) + asp y := by
  constructor
  · rfl
  · intro y hy
    obtain ⟨k, rfl⟩ : ∃ k, y = k + 1 := ⟨y - 1, by omega⟩
    rw [cumulative_savings, if_neg (by omega)]
    simp

theorem cumulative_savings_recurrence_witness :
    cumulative_savings 3 (fun y => (100 : ℚ) * y) 2 =
      cumulative_savings 3 (fun y => (100 : ℚ) * y) (2 - 1) * (1 + 3 / 100) +
        (fun y => (100 : ℚ) * y) 2 :=
  (cumulative_savings_recurrence 3 (fun y => (100 : ℚ) * y)).2 2 (by norm_num)

/-- src/app.py, line 255: the tax year used by projection year `year`. -/
def tax_year (year : ℕ) : ℤ := min 2025 (2024 + (year : ℤ))

/-- C10: for every projection year 1..30 the tax year is
min(2025, 2024 + year) = 2025, so the projection always selects the 2025
profile and never the 2024 one. -/
theorem tax_year_always_2025 (y : ℕ) (h1 : 1 ≤ y) (h2 : y ≤ 30) :
    tax_year y = min 2025 (2024 + (y : ℤ)) ∧
    tax_year y = 2025 ∧
    profile_for (tax_year y) = profile_2025 := by
  have hy : tax_year y = 2025 := by
    rw [tax_year]
    omega
  exact ⟨rfl, hy, by rw [hy, profile_for_2025]⟩

theorem tax_year_always_2025_witness :
    tax_year 1 = min 2025 (2024 + ((1 : ℕ) : ℤ)) ∧
    tax_year 1 = 2025 ∧
    profile_for (tax_year 1) = profile_2025 :=
  tax_year_always_2025 1 (by norm_num) (by norm_num)

end FinancialPlan
